import Mathlib

/-
Shallow embedding of the deepvoice-proxy server (src/api/index.js, with
src/server.js an unauthenticated variant of the same handlers).  Pure
request-translation code becomes Lean functions; the express middleware
chain becomes functions from explicit inputs (headers, environment values,
black-box upstream results) to outcome records; the external counter store
becomes explicit state passing.
-/

namespace DeepVoiceProxy

/-- Chat message as carried in the request body: a role string and a
content string (data model ChatMessage of the spec). -/
structure ChatMessage where
  role : String
  content : String
deriving DecidableEq, Repr

/-- Value of the temperature field of an incoming request body, as the JS
typeof check sees it: absent, a number, or some non-numeric value. -/
inductive TempField where
  | absent : TempField
  | num : ℚ → TempField
  | other : TempField
deriving DecidableEq, Repr

/-- Character-list helper for jsStartsWith: does the second list begin with
the first one. -/
def charsStartWith : List Char → List Char → Bool
  | [], _ => true
  | _ :: _, [] => false
  | p :: ps, c :: cs => p == c && charsStartWith ps cs

/-- Models the JS call s.startsWith pat on the underlying character
sequences. -/
def jsStartsWith (s pat : String) : Bool :=
  charsStartWith pat.toList s.toList

/-- Embedding of toOpenAIMessages from src/api/index.js: map each message
to an object with its role and content. -/
def toOpenAIMessages (messages : List ChatMessage) : List ChatMessage :=
  messages.map fun m => { role := m.role, content := m.content }

/-- Embedding of toAnthropicMessages from src/api/index.js: drop messages
whose role is system, keep role and content of the rest. -/
def toAnthropicMessages (messages : List ChatMessage) : List ChatMessage :=
  (messages.filter fun m => m.role != "system").map
    fun m => { role := m.role, content := m.content }

/-- Embedding of getSystem from src/api/index.js: content of the first
message whose role is system, or the empty string.  The JS source reads
find(...)?.content with a fallback of the empty string on a falsy content;
for string contents that is exactly the match below. -/
def getSystem (messages : List ChatMessage) : String :=
  match messages.find? (fun m => m.role == "system") with
  | some m => m.content
  | none => ""

/-- Outgoing OpenAI chat completion body built by the openai branch of the
chat handler: model, messages, and an optional temperature field. -/
structure OpenAIChatBody where
  model : String
  messages : List ChatMessage
  temperature : Option ℚ
deriving DecidableEq, Repr

/-- Embedding of the openai branch of the chat handler (src/api/index.js
lines 160 to 181): the temperature field is assigned only when the model
does not start with gpt-5, and is then the request temperature when that is
a number, else 0.2. -/
def openAIChatBody (model : String) (messages : List ChatMessage)
    (reqTemperature : TempField) : OpenAIChatBody :=
  { model := model
    messages := toOpenAIMessages messages
    temperature :=
      if jsStartsWith model "gpt-5" then none
      else
        match reqTemperature with
        | TempField.num q => some q
        | _ => some 0.2 }

/-- Outgoing Anthropic messages body built by the anthropic branch of the
chat handler. -/
structure AnthropicChatBody where
  model : String
  system : String
  messages : List ChatMessage
  max_tokens : ℕ
  temperature : ℚ
deriving DecidableEq, Repr

/-- Embedding of the anthropic branch of the chat handler (src/api/index.js
lines 183 to 205): the request temperature is read but never used, so it is
an ignored argument here. -/
def anthropicChatBody (model : String) (messages : List ChatMessage)
    (_reqTemperature : TempField) : AnthropicChatBody :=
  { model := model
    system := getSystem messages
    messages := toAnthropicMessages messages
    max_tokens := 800
    temperature := 0.2 }

/-- One part of a Gemini turn: a text fragment. -/
structure GeminiPart where
  text : String
deriving DecidableEq, Repr

/-- One Gemini turn: a role and a list of parts. -/
structure GeminiTurn where
  role : String
  parts : List GeminiPart
deriving DecidableEq, Repr

/-- Outgoing Gemini generateContent body: the optional systemInstruction
object is modelled by its list of parts. -/
structure GeminiChatBody where
  systemInstruction : Option (List GeminiPart)
  contents : List GeminiTurn
  temperature : ℚ
deriving DecidableEq, Repr

/-- Embedding of the gemini branch of the chat handler (src/api/index.js
lines 207 to 234): system messages are filtered out of the turn list, the
assistant role is renamed to model and every other remaining role becomes
user, each turn carries one part with the message text, and the spread of
the conditional systemInstruction object adds that field only when the
getSystem string is truthy, that is non-empty. -/
def geminiChatBody (messages : List ChatMessage) : GeminiChatBody :=
  let contents := (messages.filter fun m => m.role != "system").map
    fun m =>
      { role := if m.role == "assistant" then "model" else "user"
        parts := [{ text := m.content }] }
  let system := getSystem messages
  { systemInstruction := if system == "" then none else some [{ text := system }]
    contents := contents
    temperature := 0.2 }

/-- Model descriptor returned by the models endpoint. -/
structure ModelDescriptor where
  id : String
deriving DecidableEq, Repr

/-- Raw OpenAI model object as parsed from the upstream listing; the
handler projects the id field. -/
structure OpenAIRawModel where
  id : String
  owned_by : String
deriving DecidableEq, Repr

/-- Raw Anthropic model object as parsed from the upstream listing; the
handler projects the id field. -/
structure AnthropicRawModel where
  id : String
  display_name : String
deriving DecidableEq, Repr

/-- Raw Gemini model object as parsed from the upstream listing: name is
the path-qualified resource name, displayName a bare human-readable one.
The handler projects the name field. -/
structure GeminiRawModel where
  name : String
  displayName : String
deriving DecidableEq, Repr

instance : IsTotal ModelDescriptor (fun a b => a.id ≤ b.id) :=
  ⟨fun a b => le_total a.id b.id⟩

instance : IsTrans ModelDescriptor (fun a b => a.id ≤ b.id) :=
  ⟨fun _ _ _ h1 h2 => le_trans h1 h2⟩

/-- Embedding of the sort call on descriptor arrays: the JS comparator
a.id.localeCompare(b.id) orders by the string order on ids; JS sort on such
a comparator is a stable sort, modelled by insertion sort over that
order. -/
def sortById (l : List ModelDescriptor) : List ModelDescriptor :=
  List.insertionSort (fun a b => a.id ≤ b.id) l

/-- Embedding of the openai branch of the models handler (src/api/index.js
lines 107 to 118): the input is the optional data array of the parsed
upstream body, defaulted to the empty list. -/
def openAIListModels (data : Option (List OpenAIRawModel)) : List ModelDescriptor :=
  sortById ((data.getD []).map fun m => { id := m.id })

/-- Embedding of the anthropic branch of the models handler
(src/api/index.js lines 120 to 134). -/
def anthropicListModels (data : Option (List AnthropicRawModel)) : List ModelDescriptor :=
  sortById ((data.getD []).map fun m => { id := m.id })

/-- Embedding of the gemini branch of the models handler (src/api/index.js
lines 136 to 146): the id of each descriptor is the raw name field. -/
def geminiListModels (models : Option (List GeminiRawModel)) : List ModelDescriptor :=
  sortById ((models.getD []).map fun m => { id := m.name })

/-- Authenticated principal attached to the request (req.user). -/
structure Principal where
  sub : String
  email : String
deriving DecidableEq, Repr

/-- Payload of a successfully verified ID token ticket. -/
structure VerifiedPayload where
  sub : String
  email : String
deriving DecidableEq, Repr

/-- Outcome of the authenticate middleware: status and errorMsg are set on
a rejecting response, user is the principal attached on success (success is
status none, meaning next was called), and verifierCalled records whether
the external verifier was invoked. -/
structure AuthOutcome where
  status : Option ℕ
  errorMsg : Option String
  user : Option Principal
  verifierCalled : Bool
deriving DecidableEq, Repr

/-- Split of a character list at every space, the way the JS split call on
a one-space separator cuts a string into fields. -/
def splitOnSpaceAux : List Char → List Char → List String
  | [], acc => [String.mk acc.reverse]
  | c :: cs, acc =>
      if c = ' ' then String.mk acc.reverse :: splitOnSpaceAux cs []
      else splitOnSpaceAux cs (c :: acc)

/-- Embedding of the JS expression splitting a header on spaces and taking
index 1, with the empty string standing for an out-of-range access. -/
def jsSplitSecond (s : String) : String :=
  (splitOnSpaceAux s.toList []).getD 1 ""

/-- Embedding of the authenticate middleware (src/api/index.js lines 53 to
76).  The external verifier is a black-box argument returning either the
ticket payload or the message of the thrown error; requireEnv on
GOOGLE_CLIENT_ID throws inside the try block, so a missing audience surfaces
through the same catch as a verifier failure. -/
def authenticate (authHeader : Option String) (googleClientId : Option String)
    (verify : String → String → Except String VerifiedPayload) : AuthOutcome :=
  match authHeader with
  | none =>
      { status := some 401
        errorMsg := some "Missing or invalid Authorization header"
        user := none
        verifierCalled := false }
  | some h =>
      if jsStartsWith h "Bearer " then
        let idToken := jsSplitSecond h
        match googleClientId with
        | none =>
            { status := some 401
              errorMsg := some ("Invalid ID token: " ++ "Missing env var: GOOGLE_CLIENT_ID")
              user := none
              verifierCalled := false }
        | some cid =>
            match verify idToken cid with
            | Except.ok payload =>
                { status := none
                  errorMsg := none
                  user := some { sub := payload.sub, email := payload.email }
                  verifierCalled := true }
            | Except.error msg =>
                { status := some 401
                  errorMsg := some ("Invalid ID token: " ++ msg)
                  user := none
                  verifierCalled := true }
      else
        { status := some 401
          errorMsg := some "Missing or invalid Authorization header"
          user := none
          verifierCalled := false }

/-- State of the external counter store: a count and an expiry per key. -/
structure Store where
  counts : String → ℕ
  ttl : String → Option ℕ

/-- Atomic increment of the store: returns the post-increment value of the
key together with the new state. -/
def storeIncr (s : Store) (k : String) : ℕ × Store :=
  let n := s.counts k + 1
  (n, { s with counts := fun k2 => if k2 = k then n else s.counts k2 })

/-- Expiry update of the store. -/
def storeExpire (s : Store) (k : String) (seconds : ℕ) : Store :=
  { s with ttl := fun k2 => if k2 = k then some seconds else s.ttl k2 }

/-- The four store calls the rate limiter performs, in source order. -/
inductive StoreOp where
  | incrUser : StoreOp
  | expireUser : StoreOp
  | incrTotal : StoreOp
  | expireTotal : StoreOp
deriving DecidableEq, Repr

/-- Decision of the rate limiter middleware: pass means next was called,
reject carries the response status and the error string of the JSON body. -/
inductive GateDecision where
  | pass : GateDecision
  | reject : ℕ → String → GateDecision
deriving DecidableEq, Repr

/-- Result of the rate limiter: its decision and the store state it leaves
behind (none when no store handle is configured). -/
structure GateResult where
  decision : GateDecision
  store : Option Store

/-- Embedding of the DAILY_QUOTA constant (src/api/index.js line 29). -/
def DAILY_QUOTA : ℕ := 50

/-- Per-user daily counter key (src/api/index.js line 83). -/
def userKey (userId today : String) : String :=
  "usage:user:" ++ userId ++ ":" ++ today

/-- Global daily counter key (src/api/index.js line 84). -/
def totalKey (today : String) : String :=
  "usage:total:" ++ today

/-- Embedding of the rateLimiter middleware (src/api/index.js lines 78 to
100).  The throws argument says which store calls raise; the calls run in
source order inside one try block, so the first raising call jumps to the
catch, which swallows the error and calls next.  The quota comparison uses
the post-increment value of the per-user key, after all four store calls
succeeded. -/
def rateLimiter (redis : Option Store) (throws : StoreOp → Bool)
    (userId today : String) : GateResult :=
  match redis with
  | none => { decision := GateDecision.pass, store := none }
  | some s0 =>
      let uk := userKey userId today
      let tk := totalKey today
      if throws StoreOp.incrUser then
        { decision := GateDecision.pass, store := some s0 }
      else
        let r1 := storeIncr s0 uk
        let count := r1.1
        let s1 := r1.2
        if throws StoreOp.expireUser then
          { decision := GateDecision.pass, store := some s1 }
        else
          let s2 := storeExpire s1 uk 86400
          if throws StoreOp.incrTotal then
            { decision := GateDecision.pass, store := some s2 }
          else
            let s3 := (storeIncr s2 tk).2
            if throws StoreOp.expireTotal then
              { decision := GateDecision.pass, store := some s3 }
            else
              let s4 := storeExpire s3 tk 86400
              if count > DAILY_QUOTA then
                { decision := GateDecision.reject 429
                    ("Daily quota of " ++ toString DAILY_QUOTA ++ " requests exceeded.")
                  store := some s4 }
              else
                { decision := GateDecision.pass, store := some s4 }

/-- Uploaded file metadata as staged by the upload middleware. -/
structure UploadedFile where
  path : String
  originalname : String
deriving DecidableEq, Repr

/-- Black-box result of the upstream transcription call: the text of the
response on success, or the message the handler extracts from the thrown
error (upstream error message when available, else the local one). -/
inductive UpstreamTranscription where
  | ok : String → UpstreamTranscription
  | err : String → UpstreamTranscription
deriving DecidableEq, Repr

/-- Outcome of the transcribe handler: response status and body, plus the
list of file paths passed to unlinkSync, in order. -/
structure TranscribeOutcome where
  status : ℕ
  body : String
  unlinked : List String
deriving DecidableEq, Repr

/-- Embedding of the transcribe handler (src/api/index.js lines 243 to 271,
identically src/server.js lines 177 to 205).  requireEnv on OPENAI_API_KEY
runs first and throws into the catch when the key is absent; a missing file
returns 400; otherwise the upstream call is made and unlinkSync runs only
on the line after a successful call, while the catch block performs no
cleanup. -/
def transcribeHandler (openAIKey : Option String) (file : Option UploadedFile)
    (upstream : UpstreamTranscription) : TranscribeOutcome :=
  match openAIKey with
  | none =>
      { status := 500
        body := "Transcription failed: " ++ "Missing env var: OPENAI_API_KEY"
        unlinked := [] }
  | some _ =>
      match file with
      | none => { status := 400, body := "No file uploaded", unlinked := [] }
      | some f =>
          match upstream with
          | UpstreamTranscription.ok text =>
              { status := 200, body := text, unlinked := [f.path] }
          | UpstreamTranscription.err msg =>
              { status := 500, body := "Transcription failed: " ++ msg, unlinked := [] }

/-- Append on strings acts as append on the underlying character lists. -/
theorem string_data_append (a b : String) : (a ++ b).data = a.data ++ b.data := rfl

/-- The per-user counter key and the global counter key never coincide,
whatever the user id and the day strings are: the two literal key stems
differ at character index six. -/
theorem userKey_ne_totalKey (u d : String) : userKey u d ≠ totalKey d := by
  intro h
  have h2 : (userKey u d).data = (totalKey d).data := congrArg String.data h
  simp only [userKey, totalKey, string_data_append, List.append_assoc] at h2
  simp [List.cons_append, List.cons.injEq] at h2

/-- Rebuilding a ChatMessage from its two fields is the identity. -/
theorem chatMessage_rebuild (m : ChatMessage) :
    ({ role := m.role, content := m.content } : ChatMessage) = m := rfl

/-- The anthropic message translation is exactly the filter that drops
system messages, preserving the order of the rest. -/
theorem toAnthropicMessages_eq_filter (messages : List ChatMessage) :
    toAnthropicMessages messages = messages.filter (fun m => m.role != "system") := by
  unfold toAnthropicMessages
  rw [show (fun m : ChatMessage => ({ role := m.role, content := m.content } : ChatMessage))
      = id from funext fun m => rfl, List.map_id]

/-- C1 counterexample: a transcription request with an uploaded file whose
upstream call throws performs zero deletions of the staged temporary copy,
not exactly one; the catch block of the transcribe handler contains no
unlink call. -/
theorem C1_counterexample :
    ¬ ((transcribeHandler (some "sk-key") (some ⟨"/tmp/upload1", "a.m4a"⟩)
        (UpstreamTranscription.err "boom")).unlinked.count "/tmp/upload1" = 1) := by
  decide

/-- C1 (amended): for every transcription request with an uploaded file and
a configured credential, the staged temporary copy is deleted exactly once
when the upstream call succeeds, and is not deleted at all when the
upstream call throws (cleanup happens on the success path only). -/
theorem C1_cleanup_on_success_only (key : String) (f : UploadedFile) (text msg : String) :
    (transcribeHandler (some key) (some f) (UpstreamTranscription.ok text)).unlinked
      = [f.path] ∧
    (transcribeHandler (some key) (some f) (UpstreamTranscription.err msg)).unlinked
      = [] :=
  ⟨rfl, rfl⟩

/-- C4: for every valid openai ChatRequest whose model does not start with
gpt-5, an explicitly numeric request temperature is forwarded unchanged and
an omitted temperature is sent as 0.2; for every model starting with gpt-5,
no temperature field appears in the outgoing body regardless of the
input. -/
theorem C4_openai_temperature (model : String) (messages : List ChatMessage)
    (q : ℚ) (t : TempField) :
    (jsStartsWith model "gpt-5" = false →
      (openAIChatBody model messages (TempField.num q)).temperature = some q ∧
      (openAIChatBody model messages TempField.absent).temperature = some 0.2) ∧
    (jsStartsWith model "gpt-5" = true →
      (openAIChatBody model messages t).temperature = none) := by
  constructor
  · intro h
    constructor <;> simp [openAIChatBody, h]
  · intro h
    simp [openAIChatBody, h]

/-- C4 witness: on the model gpt-4o an explicit seven tenths is forwarded
and an absent temperature becomes 0.2, while on the model gpt-5-mini no
temperature field is produced. -/
theorem C4_witness :
    (openAIChatBody "gpt-4o" [] (TempField.num (7/10))).temperature = some (7/10) ∧
    (openAIChatBody "gpt-4o" [] TempField.absent).temperature = some 0.2 ∧
    (openAIChatBody "gpt-5-mini" [] TempField.absent).temperature = none := by
  refine ⟨?_, ?_, ?_⟩
  · exact ((C4_openai_temperature "gpt-4o" [] (7/10) TempField.absent).1 (by decide)).1
  · exact ((C4_openai_temperature "gpt-4o" [] (7/10) TempField.absent).1 (by decide)).2
  · exact (C4_openai_temperature "gpt-5-mini" [] (7/10) TempField.absent).2 (by decide)

/-- C5 counterexample: the claim says a request with absent temperature
produces an outgoing body with no temperature field, but on the model
gpt-4o with absent temperature the code sends the default 0.2, so the
field is present. -/
theorem C5_counterexample :
    ¬ ((openAIChatBody "gpt-4o" [] TempField.absent).temperature = none) := by
  decide

/-- C5 (amended): for provider openai the temperature field is included in
the outgoing body exactly when the model does not begin with gpt-5; when it
is included it is the request temperature if that was explicitly numeric,
and the default 0.2 when the request temperature was absent or
non-numeric. -/
theorem C5_openai_temperature_presence (model : String) (messages : List ChatMessage)
    (t : TempField) :
    ((openAIChatBody model messages t).temperature = none ↔
      jsStartsWith model "gpt-5" = true) ∧
    (jsStartsWith model "gpt-5" = false →
      ((t = TempField.absent ∨ t = TempField.other) →
        (openAIChatBody model messages t).temperature = some 0.2) ∧
      ∀ q, t = TempField.num q →
        (openAIChatBody model messages t).temperature = some q) := by
  cases hb : jsStartsWith model "gpt-5" <;> cases t <;> simp [openAIChatBody, hb]

/-- C5 witness: on the model gpt-5-mini the field is absent, on gpt-4o an
absent request temperature yields the default 0.2 and a numeric one is
forwarded. -/
theorem C5_witness :
    ((openAIChatBody "gpt-5-mini" [] TempField.other).temperature = none) ∧
    ((openAIChatBody "gpt-4o" [] TempField.other).temperature = some 0.2) ∧
    ((openAIChatBody "gpt-4o" [] (TempField.num (3/2))).temperature = some (3/2)) := by
  refine ⟨?_, ?_, ?_⟩
  · exact (C5_openai_temperature_presence "gpt-5-mini" [] TempField.other).1.2 (by decide)
  · exact ((C5_openai_temperature_presence "gpt-4o" [] TempField.other).2 (by decide)).1
      (Or.inr rfl)
  · exact ((C5_openai_temperature_presence "gpt-4o" [] (TempField.num (3/2))).2
      (by decide)).2 (3/2) rfl

/-- C2: with a working counter store the per-principal daily counter is
incremented before the limit check; when the post-increment value exceeds
the daily limit of 50 the request is rejected with status 429 and the error
string of the body, and the increment is not rolled back, so the request
numbered 51 of a principal within the window is rejected while its quota is
still consumed. -/
theorem C2_quota_reject_consumes (s : Store) (userId today : String)
    (h : DAILY_QUOTA < s.counts (userKey userId today) + 1) :
    (rateLimiter (some s) (fun _ => false) userId today).decision
      = GateDecision.reject 429 "Daily quota of 50 requests exceeded." ∧
    Option.map (fun s2 => s2.counts (userKey userId today))
        (rateLimiter (some s) (fun _ => false) userId today).store
      = some (s.counts (userKey userId today) + 1) := by
  have h50 : 50 < s.counts (userKey userId today) + 1 := h
  constructor
  · simp only [rateLimiter, storeIncr, storeExpire, DAILY_QUOTA]
    rw [if_pos h50]
    rfl
  · simp only [rateLimiter, storeIncr, storeExpire, DAILY_QUOTA]
    rw [if_pos h50]
    simp [userKey_ne_totalKey]

/-- Store of a principal who has already spent the full daily quota of the
day. -/
def fullQuotaStore : Store :=
  { counts := fun k => if k = userKey "alice" "2026-10-12" then 50 else 0
    ttl := fun _ => none }

/-- C2 witness: the request numbered 51 of the day for a concrete principal
is rejected with 429 and the body string of the quota error, while the
counter still advances to 51. -/
theorem C2_witness :
    (rateLimiter (some fullQuotaStore) (fun _ => false) "alice" "2026-10-12").decision
      = GateDecision.reject 429 "Daily quota of 50 requests exceeded." ∧
    Option.map (fun s2 => s2.counts (userKey "alice" "2026-10-12"))
        (rateLimiter (some fullQuotaStore) (fun _ => false) "alice" "2026-10-12").store
      = some 51 := by
  have hmain := C2_quota_reject_consumes fullQuotaStore "alice" "2026-10-12" (by decide)
  refine ⟨hmain.1, ?_⟩
  rw [hmain.2]
  decide

/-- C3: with an unconfigured store handle the quota gate passes the request on
without touching any counter, and whenever some store call throws during
increment or expire the error is swallowed and the request is passed on
(fail-open on both the unconfigured and the erroring store). -/
theorem C3_fail_open (s : Store) (throws : StoreOp → Bool) (userId today : String)
    (h : ∃ op, throws op = true) :
    rateLimiter none throws userId today
      = { decision := GateDecision.pass, store := none } ∧
    (rateLimiter (some s) throws userId today).decision = GateDecision.pass := by
  refine ⟨rfl, ?_⟩
  cases h1 : throws StoreOp.incrUser with
  | true => simp [rateLimiter, h1]
  | false =>
    cases h2 : throws StoreOp.expireUser with
    | true => simp [rateLimiter, h1, h2]
    | false =>
      cases h3 : throws StoreOp.incrTotal with
      | true => simp [rateLimiter, h1, h2, h3]
      | false =>
        cases h4 : throws StoreOp.expireTotal with
        | true => simp [rateLimiter, h1, h2, h3, h4]
        | false =>
          exfalso
          obtain ⟨op, hop⟩ := h
          cases op <;> simp_all

/-- Fault schedule on which every store call throws. -/
def throwingFlags : StoreOp → Bool := fun _ => true

/-- Store with no usage recorded yet. -/
def emptyStore : Store := { counts := fun _ => 0, ttl := fun _ => none }

/-- C3 witness: a concrete request is passed on both with no store handle
and with a store whose calls all throw. -/
theorem C3_witness :
    rateLimiter none throwingFlags "bob" "2026-10-12"
      = { decision := GateDecision.pass, store := none } ∧
    (rateLimiter (some emptyStore) throwingFlags "bob" "2026-10-12").decision
      = GateDecision.pass :=
  C3_fail_open emptyStore throwingFlags "bob" "2026-10-12" ⟨StoreOp.incrUser, rfl⟩

/-- C6: for provider anthropic the content of the first message with role
system (if any) becomes the outgoing system field, every system message is
removed from the outgoing messages list while all non-system messages pass
through in their original order, and the outgoing request always has
max_tokens 800 and temperature 0.2 regardless of any request-supplied
temperature. -/
theorem C6_anthropic_translation (model : String) (messages : List ChatMessage)
    (t1 t2 : TempField) :
    (∀ m, messages.find? (fun x => x.role == "system") = some m →
      (anthropicChatBody model messages t1).system = m.content) ∧
    (anthropicChatBody model messages t1).messages
      = messages.filter (fun m => m.role != "system") ∧
    (∀ m ∈ (anthropicChatBody model messages t1).messages, m.role ≠ "system") ∧
    (anthropicChatBody model messages t1).max_tokens = 800 ∧
    (anthropicChatBody model messages t1).temperature = 0.2 ∧
    anthropicChatBody model messages t1 = anthropicChatBody model messages t2 := by
  refine ⟨?_, toAnthropicMessages_eq_filter messages, ?_, rfl, rfl, rfl⟩
  · intro m hm
    simp [anthropicChatBody, getSystem, hm]
  · intro m hm
    rw [show (anthropicChatBody model messages t1).messages
        = messages.filter (fun m => m.role != "system")
        from toAnthropicMessages_eq_filter messages] at hm
    have h2 := (List.mem_filter.mp hm).2
    simpa using h2

/-- C6 witness: a concrete two-message conversation with a leading system
message yields that content in the system field and only the user message
in the outgoing list. -/
theorem C6_witness :
    (anthropicChatBody "claude-3-opus"
      [⟨"system", "be nice"⟩, ⟨"user", "hi"⟩] TempField.absent).system = "be nice" ∧
    (anthropicChatBody "claude-3-opus"
      [⟨"system", "be nice"⟩, ⟨"user", "hi"⟩] TempField.absent).messages
      = [⟨"user", "hi"⟩] := by
  have hmain := C6_anthropic_translation "claude-3-opus"
    [⟨"system", "be nice"⟩, ⟨"user", "hi"⟩] TempField.absent (TempField.num 1)
  refine ⟨hmain.1 ⟨"system", "be nice"⟩ (by decide), ?_⟩
  rw [hmain.2.1]
  decide

/-- C7 counterexample: the claim says that whenever a system message exists
its content is supplied as the separate system-instruction field, but in
this request a system message exists (with empty content) while the
outgoing gemini body carries no system-instruction field, because the JS
truthiness test on the extracted content drops the empty string. -/
theorem C7_counterexample :
    (∃ m ∈ [ChatMessage.mk "system" ""], m.role = "system") ∧
    (geminiChatBody [ChatMessage.mk "system" ""]).systemInstruction = none :=
  ⟨⟨ChatMessage.mk "system" "", by simp, rfl⟩, rfl⟩

/-- C7 (amended): for provider gemini, assistant messages appear in the
turn list with role model, no system message ever appears in the turn list
and every turn role is model or user, each turn carries exactly one part
holding the text of a non-system message of the request, the outgoing
temperature is fixed at 0.2, and the content of the first system message is
supplied as the system-instruction field exactly when it is non-empty (no
system message, or a first system message with empty content, yields a body
without that field). -/
theorem C7_gemini_translation (messages : List ChatMessage) :
    (∀ m ∈ messages, m.role = "assistant" →
      GeminiTurn.mk "model" [{ text := m.content }] ∈ (geminiChatBody messages).contents) ∧
    (∀ turn ∈ (geminiChatBody messages).contents, turn.role ≠ "system") ∧
    (∀ turn ∈ (geminiChatBody messages).contents,
      turn.role = "model" ∨ turn.role = "user") ∧
    (∀ turn ∈ (geminiChatBody messages).contents, turn.parts.length = 1) ∧
    (∀ turn ∈ (geminiChatBody messages).contents,
      ∃ m ∈ messages, m.role ≠ "system" ∧ turn.parts = [{ text := m.content }]) ∧
    (∀ m, messages.find? (fun x => x.role == "system") = some m → m.content ≠ "" →
      (geminiChatBody messages).systemInstruction = some [{ text := m.content }]) ∧
    (getSystem messages = "" → (geminiChatBody messages).systemInstruction = none) ∧
    (geminiChatBody messages).temperature = 0.2 := by
  refine ⟨?_, ?_, ?_, ?_, ?_, ?_, ?_, rfl⟩
  · intro m hm hrole
    have hf : m ∈ messages.filter (fun x => x.role != "system") :=
      List.mem_filter.mpr ⟨hm, by simp [hrole]⟩
    have := List.mem_map_of_mem
      (fun m : ChatMessage =>
        ({ role := if m.role == "assistant" then "model" else "user"
           parts := [{ text := m.content }] } : GeminiTurn)) hf
    simpa [geminiChatBody, hrole] using this
  · intro turn ht
    simp only [geminiChatBody, List.mem_map] at ht
    obtain ⟨m, _, rfl⟩ := ht
    split <;> simp
  · intro turn ht
    simp only [geminiChatBody, List.mem_map] at ht
    obtain ⟨m, _, rfl⟩ := ht
    split
    · exact Or.inl rfl
    · exact Or.inr rfl
  · intro turn ht
    simp only [geminiChatBody, List.mem_map] at ht
    obtain ⟨m, _, rfl⟩ := ht
    rfl
  · intro turn ht
    simp only [geminiChatBody, List.mem_map] at ht
    obtain ⟨m, hmf, rfl⟩ := ht
    have h1 := (List.mem_filter.mp hmf).1
    have h2 := (List.mem_filter.mp hmf).2
    exact ⟨m, h1, by simpa using h2, rfl⟩
  · intro m hm hc
    have hs : getSystem messages = m.content := by
      simp [getSystem, hm]
    simp [geminiChatBody, hs, hc]
  · intro h
    simp [geminiChatBody, h]

/-- C7 witness: a concrete conversation with a non-empty system message, a
user message and an assistant message produces the model turn for the
assistant message and the system-instruction field with the system
content. -/
theorem C7_witness :
    GeminiTurn.mk "model" [{ text := "yo" }] ∈
      (geminiChatBody [⟨"system", "S"⟩, ⟨"user", "hi"⟩, ⟨"assistant", "yo"⟩]).contents ∧
    (geminiChatBody [⟨"system", "S"⟩, ⟨"user", "hi"⟩, ⟨"assistant", "yo"⟩]).systemInstruction
      = some [{ text := "S" }] := by
  have hmain := C7_gemini_translation [⟨"system", "S"⟩, ⟨"user", "hi"⟩, ⟨"assistant", "yo"⟩]
  exact ⟨hmain.1 ⟨"assistant", "yo"⟩ (by simp) rfl,
    hmain.2.2.2.2.2.1 ⟨"system", "S"⟩ (by decide) (by decide)⟩

/-- C8: a request whose authorization header is absent or does not start
with the Bearer marker is rejected with 401 and the verifier is never
called; a request whose token fails verification is rejected with 401
carrying the verifier message, the thrown error being caught at the gate
rather than propagated. -/
theorem C8_auth_gate (authHeader : Option String) (clientId : Option String)
    (verify : String → String → Except String VerifiedPayload) :
    ((authHeader = none ∨ ∃ h, authHeader = some h ∧ jsStartsWith h "Bearer " = false) →
      authenticate authHeader clientId verify
        = { status := some 401, errorMsg := some "Missing or invalid Authorization header",
            user := none, verifierCalled := false }) ∧
    (∀ h cid msg, authHeader = some h → jsStartsWith h "Bearer " = true →
      clientId = some cid → verify (jsSplitSecond h) cid = Except.error msg →
      authenticate authHeader clientId verify
        = { status := some 401, errorMsg := some ("Invalid ID token: " ++ msg),
            user := none, verifierCalled := true }) := by
  constructor
  · rintro (rfl | ⟨h, rfl, hb⟩)
    · rfl
    · simp [authenticate, hb]
  · rintro h cid msg rfl hb rfl hv
    simp [authenticate, hb, hv]

/-- Verifier that rejects every token as used too late. -/
def expiredVerifier : String → String → Except String VerifiedPayload :=
  fun _ _ => Except.error "Token used too late"

/-- C8 witness: a header with the wrong marker is rejected without a
verifier call, and a Bearer header whose token the verifier rejects is
rejected with the verifier message. -/
theorem C8_witness :
    authenticate (some "Basic abc") (some "cid-1") expiredVerifier
      = { status := some 401, errorMsg := some "Missing or invalid Authorization header",
          user := none, verifierCalled := false } ∧
    authenticate (some "Bearer abc") (some "cid-1") expiredVerifier
      = { status := some 401, errorMsg := some ("Invalid ID token: " ++ "Token used too late"),
          user := none, verifierCalled := true } := by
  constructor
  · exact (C8_auth_gate (some "Basic abc") (some "cid-1") expiredVerifier).1
      (Or.inr ⟨"Basic abc", rfl, by decide⟩)
  · exact (C8_auth_gate (some "Bearer abc") (some "cid-1") expiredVerifier).2
      "Bearer abc" "cid-1" "Token used too late" rfl (by decide) rfl rfl

/-- C9: for all three providers the model listing returned to the caller is
sorted ascending by id, an absent or empty upstream listing yields the
empty array rather than an error, and each listing is a rearrangement of
the projected raw objects, with the gemini ids taken from the raw resource
name field. -/
theorem C9_models_listing (d1 : Option (List OpenAIRawModel))
    (d2 : Option (List AnthropicRawModel)) (d3 : Option (List GeminiRawModel)) :
    List.Sorted (fun a b : ModelDescriptor => a.id ≤ b.id) (openAIListModels d1) ∧
    List.Sorted (fun a b : ModelDescriptor => a.id ≤ b.id) (anthropicListModels d2) ∧
    List.Sorted (fun a b : ModelDescriptor => a.id ≤ b.id) (geminiListModels d3) ∧
    openAIListModels none = [] ∧ openAIListModels (some []) = [] ∧
    anthropicListModels none = [] ∧ anthropicListModels (some []) = [] ∧
    geminiListModels none = [] ∧ geminiListModels (some []) = [] ∧
    List.Perm (openAIListModels d1) ((d1.getD []).map fun m => { id := m.id }) ∧
    List.Perm (anthropicListModels d2) ((d2.getD []).map fun m => { id := m.id }) ∧
    List.Perm (geminiListModels d3) ((d3.getD []).map fun m => { id := m.name }) :=
  ⟨List.sorted_insertionSort _ _, List.sorted_insertionSort _ _,
    List.sorted_insertionSort _ _, rfl, rfl, rfl, rfl, rfl, rfl,
    List.perm_insertionSort _ _, List.perm_insertionSort _ _,
    List.perm_insertionSort _ _⟩

/-- C10: with a well-formed Bearer header and an absent verifier audience
value the identity gate rejects with 401 (the requireEnv throw on
GOOGLE_CLIENT_ID is caught inside the gate and surfaces as an
authentication failure), not with a 500, and no principal is attached. -/
theorem C10_missing_audience_rejects (h : String)
    (verify : String → String → Except String VerifiedPayload)
    (hb : jsStartsWith h "Bearer " = true) :
    (authenticate (some h) none verify).status = some 401 ∧
    (authenticate (some h) none verify).status ≠ some 500 ∧
    (authenticate (some h) none verify).user = none ∧
    (authenticate (some h) none verify).errorMsg
      = some ("Invalid ID token: " ++ "Missing env var: GOOGLE_CLIENT_ID") := by
  simp [authenticate, hb]

/-- Verifier that accepts every token with a fixed payload. -/
def acceptingVerifier : String → String → Except String VerifiedPayload :=
  fun _ _ => Except.ok { sub := "sub-1", email := "alice@example.com" }

/-- C10 witness: a concrete Bearer request against an unset audience value
is rejected with 401, not 500, attaching no principal, even though the
verifier itself would have accepted the token. -/
theorem C10_witness :
    (authenticate (some "Bearer tok") none acceptingVerifier).status = some 401 ∧
    (authenticate (some "Bearer tok") none acceptingVerifier).status ≠ some 500 ∧
    (authenticate (some "Bearer tok") none acceptingVerifier).user = none ∧
    (authenticate (some "Bearer tok") none acceptingVerifier).errorMsg
      = some ("Invalid ID token: " ++ "Missing env var: GOOGLE_CLIENT_ID") :=
  C10_missing_audience_rejects "Bearer tok" acceptingVerifier (by decide)

end DeepVoiceProxy
